import Mathlib

/- Shallow embedding of vsmrplus.cpp (vSMR+ 0.3.3): the configuration-file
   parser inside Plugin::load, the derived hotspot index and stand table,
   and the tag-item / METAR handlers.  C++ std::string values are modelled
   as List Char, unordered_map / unordered_set as association lists, and
   the external EuroScope API (CPosition::LoadFromStrings, sector-file
   elements, the controller position and display range, DistanceTo) as an
   explicit environment of oracle functions.  Exceptions escaping the
   parse (std::stoll, unordered_map::at) are modelled with an error
   component in the result. -/

/-- Geodetic position as produced by the external EuroScope API. -/
structure Position where
  lat : Rat
  lon : Rat
deriving DecidableEq

/-- Default-constructed CPosition, used for not-yet-resolved H records. -/
def defPos : Position := ⟨0, 0⟩

/-- struct Hotspot: position, scratchpad-matchable value, ARGB colour
    override (0 meaning default). -/
structure Hotspot where
  position : Position
  value : List Char
  colour : Nat
deriving DecidableEq

/-- struct StandInfo: jet/prop letters, 8-bit colour bitfields, details. -/
structure StandInfo where
  letter : Char
  prop_letter : Char
  colour : Nat
  prop_colour : Nat
  details : List Char
deriving DecidableEq

/-- First-match lookup in an association list (unordered_map::find). -/
def alFind? {α β : Type} [DecidableEq α] : List (α × β) → α → Option β
  | [], _ => none
  | (k, v) :: rest, key => if k = key then some v else alFind? rest key

/-- Overwriting update (unordered_map::operator[] assignment). -/
def alSet {α β : Type} [DecidableEq α] : List (α × β) → α → β → List (α × β)
  | [], key, val => [(key, val)]
  | (k, v) :: rest, key, val =>
    if k = key then (key, val) :: rest else (k, v) :: alSet rest key val

/-- unordered_map::insert: a no-op when the key is already present. -/
def alInsertNew {α β : Type} [DecidableEq α] (m : List (α × β)) (key : α) (val : β) :
    List (α × β) :=
  match alFind? m key with
  | some _ => m
  | none => m ++ [(key, val)]

/-- unordered_map::operator[] read: create a default entry if absent. -/
def alEnsure {α β : Type} [DecidableEq α] (m : List (α × β)) (key : α) (d : β) :
    List (α × β) :=
  match alFind? m key with
  | some _ => m
  | none => m ++ [(key, d)]

/-- Exceptions that can escape Plugin::load in the C++ source:
    std::stoll throws invalid_argument / out_of_range, unordered_map::at
    throws out_of_range (standMissing); uninitStands marks the undefined
    behaviour of dereferencing current_stands before any A record. -/
inductive ParseErr
  | invalidArgument
  | outOfRange
  | standMissing
  | uninitStands
deriving DecidableEq

/-- The external EuroScope collaborators consulted during load():
    active airport elements, CPosition::LoadFromStrings (taking lon then
    lat, as called by the source), free-text elements with their optional
    anchor positions, the controller position, display range, and the
    DistanceTo metric. -/
structure Env where
  activeAerodromes : List (List Char)
  loadPos : List Char → List Char → Option Position
  freeText : List (List Char × Option Position)
  myPos : Position
  myRange : Rat
  dist : Position → Position → Rat

/-- Mutable state of the parse loop in Plugin::load (the locals active,
    colour, current_stands, named_hotspot plus the member collections it
    mutates, and a count of the skipped-line diagnostics it emits). -/
structure ParseSt where
  active : Bool
  colour : Nat
  currentAd : Option (List Char)
  namedHotspot : List (List Char × Hotspot)
  hotspot : List Hotspot
  closed : List (List Position)
  stands : List (List Char × List (List Char × StandInfo))
  warnings : Nat
deriving DecidableEq

/-- Parse-loop state at the top of Plugin::load (active = true,
    colour = 0, everything else empty). -/
def initParseSt : ParseSt :=
  { active := true, colour := 0, currentAd := none, namedHotspot := [],
    hotspot := [], closed := [], stands := [], warnings := 0 }

/-- One emitted "skipping invalid line" diagnostic (the fail label). -/
def bumpWarn (st : ParseSt) : ParseSt := { st with warnings := st.warnings + 1 }

/-- Whitespace for istream_iterator tokenisation (C isspace). -/
def wsChar (c : Char) : Bool :=
  c == ' ' || c == '\t' || c == '\n' || c == '\x0b' || c == '\x0c' || c == '\r'

/-- Whitespace tokenisation of a line, as done by
    istream_iterator over an istringstream. -/
def tokenize (l : List Char) : List (List Char) :=
  (l.foldr
    (fun c acc =>
      if wsChar c then [] :: acc
      else
        match acc with
        | [] => [[c]]
        | t :: ts => (c :: t) :: ts)
    []).filter (fun t => !t.isEmpty)

/-- Value of a base-16 digit character, none for non-digits. -/
def hexVal (c : Char) : Option Nat :=
  if '0' ≤ c ∧ c ≤ '9' then some (c.toNat - 48)
  else if 'a' ≤ c ∧ c ≤ 'f' then some (c.toNat - 87)
  else if 'A' ≤ c ∧ c ≤ 'F' then some (c.toNat - 55)
  else none

def isHexDigit (c : Char) : Bool := (hexVal c).isSome

def hexNat (l : List Char) : Nat :=
  l.foldl (fun a c => 16 * a + (hexVal c).getD 0) 0

/-- std::stoll(s, nullptr, 16): skip whitespace, optional sign, optional
    0x prefix, longest run of hex digits; throws invalid_argument when no
    digits can be converted and out_of_range outside long long. -/
def stoll16 (s : List Char) : Except ParseErr Int :=
  let s1 := s.dropWhile wsChar
  let sgn : Int := match s1 with
    | '-' :: _ => -1
    | _ => 1
  let s2 := match s1 with
    | '-' :: r => r
    | '+' :: r => r
    | _ => s1
  let s3 := match s2 with
    | '0' :: x :: d :: r =>
      if (x == 'x' || x == 'X') && isHexDigit d then d :: r else s2
    | _ => s2
  let run := s3.takeWhile isHexDigit
  if run.isEmpty then .error .invalidArgument
  else
    let v : Int := sgn * (hexNat run : Int)
    if v < -(2 ^ 63) ∨ 2 ^ 63 - 1 < v then .error .outOfRange
    else .ok v

/-- Colour digit of a stand record: parts[k][0] - '0' assigned to an
    8-bit size_t bitfield (wraps modulo 256). -/
def digitColour (c : Char) : Nat := (((c.toNat : Int) - 48) % 256).toNat

/-- The character class of the details-offset scan: find_first_of("\t "). -/
def fieldWs (c : Char) : Bool := c == '\t' || c == ' '

/-- offset = find_first_of("\t ", offset); offset = find_first_not_of. -/
def skipField (l : List Char) : List Char :=
  (l.dropWhile (fun c => !(fieldWs c))).dropWhile fieldWs

def skipFields : Nat → List Char → List Char
  | 0, l => l
  | n + 1, l => skipFields n (skipField l)

/-- The coordinate-pair loop of the C record: parts[i] is a latitude,
    parts[i+1] a longitude, handed to LoadFromStrings(lon, lat); the whole
    line fails on the first bad pair. -/
def parsePoly (env : Env) : List (List Char) → Option (List Position)
  | [] => some []
  | [_] => none
  | lat :: lon :: rest =>
    match env.loadPos lon lat with
    | none => none
    | some p =>
      match parsePoly env rest with
      | none => none
      | some ps => some (p :: ps)

/-- The switch (line[0]) body of the parse loop, reached once the line has
    a first token of length one and has passed the active-aerodrome gate. -/
def recordDispatch (env : Env) (st : ParseSt) (line : List Char) (c0 : Char)
    (parts : List (List Char)) : Except ParseErr ParseSt :=
  if c0 = 'A' then
    if parts.length ≠ 2 then .ok (bumpWarn st)
    else
      let name := parts.getD 1 []
      .ok { st with active := env.activeAerodromes.contains name,
                    currentAd := some name,
                    stands := alEnsure st.stands name [] }
  else if c0 = 'C' then
    if parts.length % 2 ≠ 1 then .ok (bumpWarn st)
    else
      match parsePoly env (parts.drop 1) with
      | none => .ok (bumpWarn st)
      | some poly => .ok { st with closed := st.closed ++ [poly] }
  else if c0 = 'F' then
    if parts.length ≠ 2 then .ok (bumpWarn st)
    else
      match stoll16 (parts.getD 1 []) with
      | .error e => .error e
      | .ok v => .ok { st with colour := (v % (2 ^ 32 : Int)).toNat }
  else if c0 = 'H' then
    if parts.length ≠ 3 then .ok (bumpWarn st)
    else
      let nh : Hotspot := ⟨defPos, parts.getD 1 [], st.colour⟩
      .ok { st with namedHotspot := alSet st.namedHotspot (parts.getD 2 []) nh }
  else if c0 = 'I' then
    if parts.length ≠ 4 then .ok (bumpWarn st)
    else
      match env.loadPos (parts.getD 3 []) (parts.getD 2 []) with
      | none => .ok (bumpWarn st)
      | some pos =>
        .ok { st with hotspot := st.hotspot ++ [⟨pos, parts.getD 1 [], st.colour⟩] }
  else if c0 = 'P' then
    if parts.length < 3 ∨ 4 < parts.length then .ok (bumpWarn st)
    else if st.active = false then .ok st
    else
      match st.currentAd with
      | none => .error .uninitStands
      | some ad =>
        let tbl := (alFind? st.stands ad).getD []
        match alFind? tbl (parts.getD 1 []) with
        | none => .error .standMissing
        | some stand =>
          let stand2 := { stand with
            prop_letter := (parts.getD 2 []).headD ' ',
            prop_colour :=
              if parts.length < 4 then 0
              else digitColour ((parts.getD 3 []).headD ' ') }
          .ok { st with stands := alSet st.stands ad (alSet tbl (parts.getD 1 []) stand2) }
  else if c0 = 'S' then
    if parts.length < 3 then .ok (bumpWarn st)
    else if st.active = false then .ok st
    else
      match st.currentAd with
      | none => .error .uninitStands
      | some ad =>
        let letter := (parts.getD 2 []).headD ' '
        let col := if parts.length < 4 then 0 else digitColour ((parts.getD 3 []).headD ' ')
        let details := if 4 < parts.length then skipFields 4 line else []
        let stand : StandInfo := ⟨letter, letter, col, col, details⟩
        let tbl := (alFind? st.stands ad).getD []
        .ok { st with stands := alSet st.stands ad (alInsertNew tbl (parts.getD 1 []) stand) }
  else .ok (bumpWarn st)

/-- One iteration of the while (getline) loop: comment / blank skip, the
    first-token shape check, the active-aerodrome gate (which consults the
    raw first character of the line, like the source), then the switch. -/
def processLine (env : Env) (st : ParseSt) (line : List Char) : Except ParseErr ParseSt :=
  match line with
  | [] => .ok st
  | c0 :: _ =>
    if c0 = ';' then .ok st
    else
      match tokenize line with
      | [] => .ok (bumpWarn st)
      | p0 :: ps =>
        if p0.length ≠ 1 then .ok (bumpWarn st)
        else if c0 ≠ 'A' ∧ st.active = false then .ok st
        else recordDispatch env st line c0 (p0 :: ps)

/-- The whole parse loop.  An escaping exception stops the loop
    immediately; the state it returns alongside the error is the partial
    state already written into the member collections at that point. -/
def runParse (env : Env) : ParseSt → List (List Char) → ParseSt × Option ParseErr
  | st, [] => (st, none)
  | st, l :: ls =>
    match processLine env st l with
    | .error e => (st, some e)
    | .ok st2 => runParse env st2 ls

/-- The free-text resolution loop after the parse: each sector free-text
    element whose name matches a pending named hotspot and whose position
    is available appends a positioned hotspot. -/
def resolveNamed (named : List (List Char × Hotspot))
    (freeText : List (List Char × Option Position)) (hs : List Hotspot) :
    List Hotspot :=
  freeText.foldl
    (fun acc nameEl =>
      match alFind? named nameEl.1 with
      | none => acc
      | some nh =>
        match nameEl.2 with
        | none => acc
        | some pos => acc ++ [{ nh with position := pos }])
    hs

/-- The final loop of load(): hotspot_by_name gets every hotspot strictly
    within the controller display range of the controller position. -/
def buildIndex (dist : Position → Position → Rat) (centre : Position) (range : Rat)
    (hs : List Hotspot) : List (List Char × Hotspot) :=
  hs.foldl
    (fun idx h => if dist h.position centre < range then alSet idx h.value h else idx)
    []

/-- The member collections of the Plugin instance. -/
structure PluginState where
  hotspot : List Hotspot
  hotspot_by_name : List (List Char × Hotspot)
  closed : List (List Position)
  dehighlight : List (List Char)
  stands : List (List Char × List (List Char × StandInfo))
  ac_pressure : List (List Char × List Char)
  ad_pressure : List (List Char × List Char)
deriving DecidableEq

/-- Plugin::load: snapshot the active aerodromes (inside env), clear the
    four derived collections, bail out after the clear when the DLL path
    cannot be resolved (pathOk = false), then parse the file lines,
    resolve named hotspots, and rebuild the range-filtered index.  The
    optional ParseErr is an exception escaping load. -/
def load (env : Env) (pathOk : Bool) (file : List (List Char)) (s : PluginState) :
    PluginState × Option ParseErr :=
  let s1 : PluginState :=
    { s with hotspot := [], hotspot_by_name := [], closed := [], stands := [] }
  if pathOk then
    match runParse env initParseSt file with
    | (pst, some e) =>
      ({ s1 with hotspot := pst.hotspot, closed := pst.closed, stands := pst.stands },
       some e)
    | (pst, none) =>
      let hs := resolveNamed pst.namedHotspot env.freeText pst.hotspot
      ({ s1 with hotspot := hs, closed := pst.closed, stands := pst.stands,
                 hotspot_by_name := buildIndex env.dist env.myPos env.myRange hs },
       none)
  else (s1, none)

/-- The fixed 8-entry COLORREF stand palette (r, g, b components). -/
def COLOUR_STAND : List (Nat × Nat × Nat) :=
  [(0x66, 0x66, 0x66), (0xcd, 0x31, 0x31), (0x0d, 0xbc, 0x79), (0xe5, 0xe5, 0x10),
   (0x24, 0x72, 0xc8), (0xbc, 0x3f, 0xbc), (0x11, 0xa8, 0xcd), (0xe5, 0xe5, 0xe5)]

/-- TAG_ITEM_STAND branch of OnGetTagItem: result is the written tag text
    and, when a stand is surfaced, the palette index passed to
    COLOUR_STAND with TAG_COLOR_RGB_DEFINED. -/
def tagItemStand (stands : List (List Char × List (List Char × StandInfo)))
    (distFromOrigin : Rat) (origin annotation : List Char) (engineType : Char) :
    List Char × Option Nat :=
  if 10 < distFromOrigin then ([], none)
  else
    match alFind? stands origin with
    | none => ([], none)
    | some tbl =>
      match alFind? tbl annotation with
      | none => ([], none)
      | some stand =>
        let prop := engineType == 'P' || engineType == 'T'
        ([if prop then stand.prop_letter else stand.letter],
         some (if prop then stand.prop_colour else stand.colour))

/-- TAG_ITEM_PRESSURE branch of OnGetTagItem: none models the early
    return with an empty tag and the colour output left unwritten; some
    (shown, ok) models the two-character snapshot display with ok
    selecting TAG_COLOR_REDUNDANT (true) or TAG_COLOR_INFORMATION. -/
def tagItemPressure (acp adp : List (List Char × List Char))
    (callsign origin : List Char) : Option (List Char × Bool) :=
  match alFind? acp callsign with
  | none => none
  | some snap =>
    let ok := match alFind? adp origin with
      | none => false
      | some cur => snap == cur
    some (snap.take 2, ok)

/-- Suffix of the text after its first letter Q, none when absent. -/
def afterFirstQ : List Char → Option (List Char)
  | [] => none
  | c :: rest => if c = 'Q' then some rest else afterFirstQ rest

/-- std::string(std::strchr(metar, (plain) Q-char) + 3, 2): the two
    characters at offsets 3 and 4 after the first Q. -/
def qnhDigits (metar : List Char) : Option (List Char) :=
  (afterFirstQ metar).map (fun r => (r.drop 2).take 2)

/-- OnNewMetarReceived body.  A text with no Q at all dereferences
    strchr's null result in the source (undefined behaviour); the model
    leaves the map unchanged in that unreachable-by-contract case. -/
def onNewMetar (adp : List (List Char × List Char)) (ad metar : List Char) :
    List (List Char × List Char) :=
  match qnhDigits metar with
  | some v => alSet adp ad v
  | none => adp

/-- Wrong-token-count conditions of the per-record checks, used to state
    the per-line recovery theorems; the final true covers the default
    (unknown record kind) branch. -/
def wrongTokenCount (c0 : Char) (n : Nat) : Bool :=
  if c0 = 'A' then decide (n ≠ 2)
  else if c0 = 'C' then decide (n % 2 ≠ 1)
  else if c0 = 'F' then decide (n ≠ 2)
  else if c0 = 'H' then decide (n ≠ 3)
  else if c0 = 'I' then decide (n ≠ 4)
  else if c0 = 'P' then decide (n < 3) || decide (4 < n)
  else if c0 = 'S' then decide (n < 3)
  else true

/-- Oracle environment for concrete evaluations: no active aerodromes,
    geodetic strings always parse to defPos, no free-text elements,
    all distances zero, display range 100. -/
def envT : Env :=
  { activeAerodromes := [], loadPos := fun _ _ => some defPos, freeText := [],
    myPos := defPos, myRange := 100, dist := fun _ _ => 0 }

/-- envT with the single active aerodrome AD. -/
def envA : Env := { envT with activeAerodromes := [String.toList "AD"] }

/-- Plugin state with every collection empty. -/
def emptyPluginState : PluginState :=
  { hotspot := [], hotspot_by_name := [], closed := [], dehighlight := [],
    stands := [], ac_pressure := [], ad_pressure := [] }

/-- envT with geodetic parsing always failing. -/
def envN : Env := { envT with loadPos := fun _ _ => none }

/-- Parse state just after an A record for the active aerodrome AD with no
    stands declared yet. -/
def stP : ParseSt :=
  { initParseSt with currentAd := some (String.toList "AD"),
                     stands := [(String.toList "AD", [])] }

/-- Parse state in aerodrome AD with stand A1 already declared. -/
def stS : ParseSt :=
  { initParseSt with currentAd := some (String.toList "AD"),
                     stands := [(String.toList "AD",
                       [(String.toList "A1", ⟨'G', 'G', 2, 2, []⟩)])] }

/-- Membership in an overwriting update comes from the new pair or the
    old map. -/
theorem alSet_mem {α β : Type} [DecidableEq α] (k : α) (v : β) (x : α × β) :
    ∀ m : List (α × β), x ∈ alSet m k v → x = (k, v) ∨ x ∈ m := by
  intro m
  induction m with
  | nil =>
    intro hx
    simp only [alSet, List.mem_singleton] at hx
    exact Or.inl hx
  | cons p rest ih =>
    intro hx
    rcases p with ⟨k1, v1⟩
    simp only [alSet] at hx
    by_cases hk : k1 = k
    · rw [if_pos hk] at hx
      rcases List.mem_cons.mp hx with h1 | h1
      · exact Or.inl h1
      · exact Or.inr (List.mem_cons_of_mem _ h1)
    · rw [if_neg hk] at hx
      rcases List.mem_cons.mp hx with h1 | h1
      · exact Or.inr (by simp [h1])
      · rcases ih h1 with h2 | h2
        · exact Or.inl h2
        · exact Or.inr (List.mem_cons_of_mem _ h2)

/-- Writing back the value already bound to a key leaves the map equal. -/
theorem alSet_self {α β : Type} [DecidableEq α] (k : α) (v : β) :
    ∀ m : List (α × β), alFind? m k = some v → alSet m k v = m := by
  intro m
  induction m with
  | nil => intro h; simp [alFind?] at h
  | cons p rest ih =>
    intro h
    rcases p with ⟨k1, v1⟩
    simp only [alFind?] at h
    by_cases hk : k1 = k
    · rw [if_pos hk] at h
      injection h with h
      subst hk
      subst h
      simp [alSet]
    · rw [if_neg hk] at h
      simp [alSet, hk, ih h]

/-- unordered_map::insert is a no-op on a key that is already present. -/
theorem alInsertNew_isSome {α β : Type} [DecidableEq α] (m : List (α × β)) (k : α)
    (x : β) (h : (alFind? m k).isSome = true) : alInsertNew m k x = m := by
  unfold alInsertNew
  cases hm : alFind? m k with
  | none => rw [hm] at h; simp at h
  | some v => rfl

/-- Every entry of the range-filtered index names a hotspot of the list
    that is strictly within the display range. -/
theorem buildIndex_mem (dist : Position → Position → Rat) (centre : Position)
    (range : Rat) :
    ∀ (hs : List Hotspot) (idx : List (List Char × Hotspot)) (x : List Char × Hotspot),
      x ∈ List.foldl
        (fun idx h => if dist h.position centre < range then alSet idx h.value h else idx)
        idx hs →
      x ∈ idx ∨ ∃ h ∈ hs, x = (h.value, h) ∧ dist h.position centre < range := by
  intro hs
  induction hs with
  | nil =>
    intro idx x hx
    exact Or.inl hx
  | cons h t ih =>
    intro idx x hx
    simp only [List.foldl_cons] at hx
    rcases ih _ x hx with hmem | ⟨h2, hh2, hx2, hd⟩
    · by_cases hcond : dist h.position centre < range
      · rw [if_pos hcond] at hmem
        rcases alSet_mem _ _ _ _ hmem with heq | hmem2
        · exact Or.inr ⟨h, List.mem_cons_self _ _, heq, hcond⟩
        · exact Or.inl hmem2
      · rw [if_neg hcond] at hmem
        exact Or.inl hmem
    · exact Or.inr ⟨h2, List.mem_cons_of_mem _ hh2, hx2, hd⟩

/-- When the line passes the comment check, the first-token shape check
    and the active gate, the parse loop body is the record switch. -/
theorem processLine_dispatch (env : Env) (st : ParseSt) (c0 : Char) (rest : List Char)
    (p0 : List Char) (ps : List (List Char))
    (hSemi : c0 ≠ ';') (hTok : tokenize (c0 :: rest) = p0 :: ps)
    (hLen : p0.length = 1) (hGate : c0 = 'A' ∨ st.active = true) :
    processLine env st (c0 :: rest) = recordDispatch env st (c0 :: rest) c0 (p0 :: ps) := by
  simp only [processLine, hTok]
  rw [if_neg hSemi]
  rw [if_neg (by simp [hLen])]
  rw [if_neg (by rcases hGate with h | h <;> simp [h])]

/-- An exception from one line stops the whole parse at that line. -/
theorem runParse_error (env : Env) (st : ParseSt) (l : List Char)
    (ls : List (List Char)) (e : ParseErr) (h : processLine env st l = .error e) :
    runParse env st (l :: ls) = (st, some e) := by
  simp [runParse, h]

/-- The suffix after the first Q of a Q-free prefix followed by Q. -/
theorem afterFirstQ_append (r : List Char) :
    ∀ pre : List Char, 'Q' ∉ pre → afterFirstQ (pre ++ 'Q' :: r) = some r := by
  intro pre
  induction pre with
  | nil => intro _; simp [afterFirstQ]
  | cons c cs ih =>
    intro h
    simp only [List.cons_append, afterFirstQ]
    rw [if_neg (by rintro rfl; exact h (List.mem_cons_self _ _))]
    exact ih (fun hm => h (List.mem_cons_of_mem _ hm))

/-- C1 counterexample: the line F zz has a non-numeric base-16 colour
    literal; std::stoll throws invalid_argument, so the line is not
    skipped with a diagnostic (no warning is emitted) and the exception
    aborts the whole parse. -/
theorem C1_nonnumeric_colour_aborts :
    (runParse envT initParseSt [String.toList "F zz"]).2 = some ParseErr.invalidArgument ∧
    (runParse envT initParseSt [String.toList "F zz"]).1.warnings = 0 := by
  decide

/-- C1 amended: a line with a wrong token count, a bad geodetic string on
    an I record, or a bad geodetic string on a C record is skipped with a
    single diagnostic and parsing continues; but an F record whose colour
    literal has no parseable base-16 digits (or overflows long long)
    raises an exception that aborts the whole parse. -/
theorem C1_per_line_recovery (env : Env) (st : ParseSt) (c0 : Char) (rest : List Char)
    (p0 : List Char) (ps : List (List Char))
    (hSemi : c0 ≠ ';') (hTok : tokenize (c0 :: rest) = p0 :: ps)
    (hLen : p0.length = 1) (hAct : st.active = true) :
    (wrongTokenCount c0 (p0 :: ps).length = true →
      processLine env st (c0 :: rest) = .ok (bumpWarn st)) ∧
    (c0 = 'I' → (p0 :: ps).length = 4 →
      env.loadPos ((p0 :: ps).getD 3 []) ((p0 :: ps).getD 2 []) = none →
      processLine env st (c0 :: rest) = .ok (bumpWarn st)) ∧
    (c0 = 'C' → (p0 :: ps).length % 2 = 1 → parsePoly env ps = none →
      processLine env st (c0 :: rest) = .ok (bumpWarn st)) ∧
    (∀ e lit, c0 = 'F' → ps = [lit] → stoll16 lit = .error e →
      processLine env st (c0 :: rest) = .error e) := by
  have hd := processLine_dispatch env st c0 rest p0 ps hSemi hTok hLen (Or.inr hAct)
  refine ⟨?_, ?_, ?_, ?_⟩
  · intro hw
    rw [hd]
    unfold recordDispatch
    by_cases hA : c0 = 'A'
    · subst hA
      have hcond : (p0 :: ps).length ≠ 2 := by simpa [wrongTokenCount] using hw
      rw [if_pos rfl, if_pos hcond]
    by_cases hC : c0 = 'C'
    · subst hC
      have hcond : (p0 :: ps).length % 2 ≠ 1 := by simpa [wrongTokenCount] using hw
      rw [if_neg (by decide), if_pos rfl, if_pos hcond]
    by_cases hF : c0 = 'F'
    · subst hF
      have hcond : (p0 :: ps).length ≠ 2 := by simpa [wrongTokenCount] using hw
      rw [if_neg (by decide), if_neg (by decide), if_pos rfl, if_pos hcond]
    by_cases hH : c0 = 'H'
    · subst hH
      have hcond : (p0 :: ps).length ≠ 3 := by simpa [wrongTokenCount] using hw
      rw [if_neg (by decide), if_neg (by decide), if_neg (by decide), if_pos rfl,
        if_pos hcond]
    by_cases hI : c0 = 'I'
    · subst hI
      have hcond : (p0 :: ps).length ≠ 4 := by simpa [wrongTokenCount] using hw
      rw [if_neg (by decide), if_neg (by decide), if_neg (by decide), if_neg (by decide),
        if_pos rfl, if_pos hcond]
    by_cases hP : c0 = 'P'
    · subst hP
      have hcond : (p0 :: ps).length < 3 ∨ 4 < (p0 :: ps).length := by
        simpa [wrongTokenCount] using hw
      rw [if_neg (by decide), if_neg (by decide), if_neg (by decide), if_neg (by decide),
        if_neg (by decide), if_pos rfl, if_pos hcond]
    by_cases hS : c0 = 'S'
    · subst hS
      have hcond : (p0 :: ps).length < 3 := by simpa [wrongTokenCount] using hw
      rw [if_neg (by decide), if_neg (by decide), if_neg (by decide), if_neg (by decide),
        if_neg (by decide), if_neg (by decide), if_pos rfl, if_pos hcond]
    · rw [if_neg hA, if_neg hC, if_neg hF, if_neg hH, if_neg hI, if_neg hP, if_neg hS]
  · intro hI hLen4 hPos
    subst hI
    rw [hd]
    have h3 : ps.length = 3 := by
      have := hLen4
      simp only [List.length_cons] at this
      omega
    obtain ⟨a, b, c, rfl⟩ := List.length_eq_three.mp h3
    simp at hPos
    simp [recordDispatch, hPos]
  · intro hC hOdd hPoly
    subst hC
    rw [hd]
    simp [recordDispatch, hOdd, hPoly]
  · intro e lit hF hps hStoll
    subst hF
    subst hps
    rw [hd]
    simp [recordDispatch, hStoll]

/-- C1 witness: concrete instances of each conjunct (a one-token A line,
    an I and a C line with unparseable geodetic strings, and the aborting
    F line). -/
theorem C1_per_line_recovery_witness :
    processLine envT initParseSt (String.toList "A") = .ok (bumpWarn initParseSt) ∧
    processLine envN initParseSt (String.toList "I X 1 2") = .ok (bumpWarn initParseSt) ∧
    processLine envN initParseSt (String.toList "C 1 2") = .ok (bumpWarn initParseSt) ∧
    processLine envT initParseSt (String.toList "F zz") = .error ParseErr.invalidArgument := by
  refine ⟨?_, ?_, ?_, ?_⟩
  · exact (C1_per_line_recovery envT initParseSt 'A' [] [ 'A'] []
      (by decide) (by decide) (by decide) (by decide)).1 (by decide)
  · exact (C1_per_line_recovery envN initParseSt 'I' (String.toList " X 1 2")
      [ 'I'] [String.toList "X", String.toList "1", String.toList "2"]
      (by decide) (by decide) (by decide) (by decide)).2.1 rfl (by decide) (by decide)
  · exact (C1_per_line_recovery envN initParseSt 'C' (String.toList " 1 2")
      [ 'C'] [String.toList "1", String.toList "2"]
      (by decide) (by decide) (by decide) (by decide)).2.2.1 rfl (by decide) (by decide)
  · exact (C1_per_line_recovery envT initParseSt 'F' (String.toList " zz")
      [ 'F'] [String.toList "zz"]
      (by decide) (by decide) (by decide) (by decide)).2.2.2
      ParseErr.invalidArgument (String.toList "zz") rfl rfl rfl

/-- C2 counterexample: in the active aerodrome AD, the line P X1 T names a
    stand never declared by an S record; unordered_map::at throws, so the
    parse aborts with no diagnostic instead of skipping the line. -/
theorem C2_undeclared_stand_aborts :
    (runParse envA initParseSt [String.toList "A AD", String.toList "P X1 T"]).2 =
      some ParseErr.standMissing ∧
    (runParse envA initParseSt [String.toList "A AD", String.toList "P X1 T"]).1.warnings
      = 0 := by
  decide

/-- C2 amended: a P record (well-formed, in an active aerodrome section)
    whose stand identifier was not previously declared by an S record
    raises an out-of-range fault that aborts the whole parse at that line;
    the line is not skipped and no diagnostic is emitted for it. -/
theorem C2_undeclared_stand_fails_hard (env : Env) (st : ParseSt) (rest : List Char)
    (p0 : List Char) (ps : List (List Char)) (ad : List Char)
    (hTok : tokenize ('P' :: rest) = p0 :: ps)
    (hLen : p0.length = 1) (hAct : st.active = true)
    (hAd : st.currentAd = some ad)
    (hCount : (p0 :: ps).length = 3 ∨ (p0 :: ps).length = 4)
    (hMiss : alFind? ((alFind? st.stands ad).getD []) ((p0 :: ps).getD 1 []) = none) :
    processLine env st ('P' :: rest) = .error ParseErr.standMissing ∧
    ∀ ls, runParse env st (('P' :: rest) :: ls) = (st, some ParseErr.standMissing) := by
  have hd := processLine_dispatch env st 'P' rest p0 ps (by decide) hTok hLen
    (Or.inr hAct)
  have hc : ¬((p0 :: ps).length < 3 ∨ 4 < (p0 :: ps).length) := by
    rcases hCount with h | h <;> omega
  have h1 : processLine env st ('P' :: rest) = .error ParseErr.standMissing := by
    rw [hd]
    unfold recordDispatch
    rw [if_neg (by decide), if_neg (by decide), if_neg (by decide), if_neg (by decide),
      if_neg (by decide), if_pos rfl, if_neg hc,
      if_neg (by simp [hAct]), hAd]
    simp at hMiss
    simp [hMiss]
  exact ⟨h1, fun ls => runParse_error env st ('P' :: rest) ls ParseErr.standMissing h1⟩

/-- C2 witness: the theorem applied to the concrete line P X1 T in the
    active aerodrome AD with an empty stand table. -/
theorem C2_undeclared_stand_fails_hard_witness :
    processLine envA stP (String.toList "P X1 T") = .error ParseErr.standMissing ∧
    runParse envA stP [String.toList "P X1 T"] = (stP, some ParseErr.standMissing) := by
  have h := C2_undeclared_stand_fails_hard envA stP (String.toList " X1 T")
    [ 'P'] [String.toList "X1", String.toList "T"] (String.toList "AD")
    (by decide) (by decide) (by decide) (by decide) (Or.inl (by decide)) (by decide)
  exact ⟨h.1, h.2 []⟩

/-- C3 counterexample: after S A1 G 2 hello and then S A1 T 3 in the
    active aerodrome AD, the stand table still holds the first record
    (letter G, colour 2, details hello), not the second (letter T,
    colour 3, no details): unordered_map::insert does not overwrite. -/
theorem C3_second_S_does_not_overwrite :
    alFind? ((alFind? (runParse envA initParseSt
        [String.toList "A AD", String.toList "S A1 G 2 hello",
         String.toList "S A1 T 3"]).1.stands (String.toList "AD")).getD [])
      (String.toList "A1") = some ⟨'G', 'G', 2, 2, String.toList "hello"⟩ ∧
    (⟨'G', 'G', 2, 2, String.toList "hello"⟩ : StandInfo) ≠ ⟨'T', 'T', 3, 3, []⟩ := by
  decide

/-- C3 amended: a later S record for a stand identifier already present
    in the current aerodrome's table leaves the whole parse state
    unchanged (the earlier record wins); repeating an S does not
    overwrite. -/
theorem C3_repeated_S_keeps_first (env : Env) (st : ParseSt) (line : List Char)
    (parts : List (List Char)) (ad : List Char)
    (tbl : List (List Char × StandInfo)) (s0 : StandInfo)
    (hAct : st.active = true) (hAd : st.currentAd = some ad)
    (hTbl : alFind? st.stands ad = some tbl)
    (hFound : alFind? tbl (parts.getD 1 []) = some s0)
    (hLen : 3 ≤ parts.length) :
    recordDispatch env st line 'S' parts = .ok st := by
  unfold recordDispatch
  rw [if_neg (by decide), if_neg (by decide), if_neg (by decide), if_neg (by decide),
    if_neg (by decide), if_neg (by decide), if_pos rfl,
    if_neg (by omega), if_neg (by simp [hAct]), hAd]
  simp only [hTbl, Option.getD_some]
  rw [alInsertNew_isSome _ _ _ (by rw [hFound]; rfl)]
  rw [alSet_self _ _ _ hTbl]
  rw [← hAd]

/-- C3 witness: re-declaring stand A1 in aerodrome AD leaves the state
    unchanged. -/
theorem C3_repeated_S_keeps_first_witness :
    recordDispatch envA stS (String.toList "S A1 T 3") 'S'
      [String.toList "S", String.toList "A1", String.toList "T", String.toList "3"] =
      .ok stS := by
  exact C3_repeated_S_keeps_first envA stS (String.toList "S A1 T 3")
    [String.toList "S", String.toList "A1", String.toList "T", String.toList "3"]
    (String.toList "AD") [(String.toList "A1", ⟨'G', 'G', 2, 2, []⟩)]
    ⟨'G', 'G', 2, 2, []⟩ (by decide) (by decide) (by decide) (by decide) (by decide)

/-- C4 counterexample: with no active aerodromes, after A AD the lines
    I X 1 2 and H L N are silently discarded: the hotspot list and the
    pending named-hotspot map stay empty (and no diagnostic is emitted),
    so H and I records are gated by active state. -/
theorem C4_hotspots_gated_when_inactive :
    (runParse envT initParseSt
      [String.toList "A AD", String.toList "I X 1 2", String.toList "H L N"]).1.hotspot
      = [] ∧
    (runParse envT initParseSt
      [String.toList "A AD", String.toList "I X 1 2",
       String.toList "H L N"]).1.namedHotspot = [] ∧
    (runParse envT initParseSt
      [String.toList "A AD", String.toList "I X 1 2", String.toList "H L N"]).1.warnings
      = 0 := by
  decide

/-- C4 amended: while the current aerodrome is inactive, every record
    other than A — in particular H and I hotspot records — that passes the
    first-token shape check is skipped silently: the parse state is
    completely unchanged, nothing is ingested and no diagnostic is emitted. -/
theorem C4_inactive_skips_all_records (env : Env) (st : ParseSt) (c0 : Char)
    (rest : List Char) (p0 : List Char) (ps : List (List Char))
    (hSemi : c0 ≠ ';') (hTok : tokenize (c0 :: rest) = p0 :: ps)
    (hLen : p0.length = 1) (hAct : st.active = false) (hA : c0 ≠ 'A') :
    processLine env st (c0 :: rest) = .ok st := by
  simp only [processLine, hTok]
  rw [if_neg hSemi]
  rw [if_neg (by simp [hLen])]
  rw [if_pos ⟨hA, hAct⟩]

/-- C4 witness: the I record of the counterexample file, skipped silently
    in an inactive section. -/
theorem C4_inactive_skips_all_records_witness :
    processLine envT { initParseSt with active := false } (String.toList "I X 1 2") =
      .ok { initParseSt with active := false } := by
  exact C4_inactive_skips_all_records envT { initParseSt with active := false } 'I'
    (String.toList " X 1 2") [ 'I']
    [String.toList "X", String.toList "1", String.toList "2"]
    (by decide) (by decide) (by decide) (by decide) (by decide)

/-- C5 counterexample: for a report containing Q1013 the stored value is
    13 (the third and fourth characters after the Q), not 10. -/
theorem C5_q1013_stores_13 :
    onNewMetar [] (String.toList "LSZH")
        (String.toList "LSZH 120950Z 26004KT CAVOK 18/12 Q1013 NOSIG") =
      [(String.toList "LSZH", String.toList "13")] ∧
    String.toList "13" ≠ String.toList "10" := by
  decide

/-- C5 amended: for every report text whose first Q is followed by at
    least four characters, the handler stores the two characters at
    offsets 3 and 4 after that Q (for a four-digit QNH group the last two
    digits), overwriting the aerodrome's entry. -/
theorem C5_stores_offset_3_4 (pre : List Char) (c1 c2 c3 c4 : Char) (post : List Char)
    (adp : List (List Char × List Char)) (ad : List Char) (hQ : 'Q' ∉ pre) :
    onNewMetar adp ad (pre ++ 'Q' :: c1 :: c2 :: c3 :: c4 :: post) =
      alSet adp ad [c3, c4] := by
  unfold onNewMetar qnhDigits
  rw [afterFirstQ_append _ _ hQ]
  rfl

/-- C5 witness: the amended theorem applied to the Q1013 report. -/
theorem C5_stores_offset_3_4_witness :
    onNewMetar [] (String.toList "LSZH")
        (String.toList "LSZH 120950Z 26004KT CAVOK 18/12 " ++
          'Q' :: '1' :: '0' :: '1' :: '3' :: String.toList " NOSIG") =
      alSet [] (String.toList "LSZH") ['1', '3'] := by
  exact C5_stores_offset_3_4 (String.toList "LSZH 120950Z 26004KT CAVOK 18/12 ")
    '1' '0' '1' '3' (String.toList " NOSIG") [] (String.toList "LSZH") (by decide)

/-- C6 counterexample: the line C 1 2 has two (an even number of)
    coordinate tokens after the tag, yet it is accepted: a one-vertex
    polygon is appended and no diagnostic is emitted. -/
theorem C6_even_coordinate_count_accepted :
    (runParse envT initParseSt [String.toList "C 1 2"]).1.closed = [[defPos]] ∧
    (runParse envT initParseSt [String.toList "C 1 2"]).1.warnings = 0 := by
  decide

/-- C6 amended: a C record is rejected (skipped with one diagnostic, no
    polygon appended) exactly when its total token count is even, i.e.
    when the number of coordinate tokens after the tag is odd; with an
    even number of coordinate tokens whose pairs all parse, a polygon is
    appended. -/
theorem C6_odd_coordinate_count_rejected (env : Env) (st : ParseSt) (line : List Char)
    (parts : List (List Char)) :
    (parts.length % 2 ≠ 1 → recordDispatch env st line 'C' parts = .ok (bumpWarn st)) ∧
    (∀ poly, parts.length % 2 = 1 → parsePoly env (parts.drop 1) = some poly →
      recordDispatch env st line 'C' parts = .ok { st with closed := st.closed ++ [poly] }) := by
  constructor
  · intro h
    unfold recordDispatch
    rw [if_neg (by decide), if_pos rfl, if_pos h]
  · intro poly h hp
    unfold recordDispatch
    rw [if_neg (by decide), if_pos rfl, if_neg (by simp [h]), hp]

/-- C6 witness: C 1 (one coordinate token) is rejected with a diagnostic;
    C 1 2 (two coordinate tokens) appends a one-vertex polygon. -/
theorem C6_odd_coordinate_count_rejected_witness :
    recordDispatch envT initParseSt (String.toList "C 1") 'C'
      [String.toList "C", String.toList "1"] = .ok (bumpWarn initParseSt) ∧
    recordDispatch envT initParseSt (String.toList "C 1 2") 'C'
      [String.toList "C", String.toList "1", String.toList "2"] =
      .ok { initParseSt with closed := [[defPos]] } := by
  constructor
  · exact (C6_odd_coordinate_count_rejected envT initParseSt (String.toList "C 1")
      [String.toList "C", String.toList "1"]).1 (by decide)
  · exact (C6_odd_coordinate_count_rejected envT initParseSt (String.toList "C 1 2")
      [String.toList "C", String.toList "1", String.toList "2"]).2
      [defPos] (by decide) (by decide)

/-- The coordinate-pair loop only consults the geodetic-string oracle. -/
theorem parsePoly_congr (e1 e2 : Env) (hL : e1.loadPos = e2.loadPos) :
    ∀ ts, parsePoly e1 ts = parsePoly e2 ts
  | [] => rfl
  | [_] => rfl
  | lat :: lon :: rest => by
    simp only [parsePoly, hL, parsePoly_congr e1 e2 hL rest]

/-- The record switch only consults the active-aerodrome set and the
    geodetic-string oracle of the environment. -/
theorem recordDispatch_congr (e1 e2 : Env)
    (hA : e1.activeAerodromes = e2.activeAerodromes)
    (hL : e1.loadPos = e2.loadPos) (st : ParseSt) (line : List Char) (c0 : Char)
    (parts : List (List Char)) :
    recordDispatch e1 st line c0 parts = recordDispatch e2 st line c0 parts := by
  unfold recordDispatch
  simp only [hA, hL, parsePoly_congr e1 e2 hL]

/-- One parse-loop iteration only consults the active-aerodrome set and
    the geodetic-string oracle of the environment. -/
theorem processLine_congr (e1 e2 : Env)
    (hA : e1.activeAerodromes = e2.activeAerodromes)
    (hL : e1.loadPos = e2.loadPos) (st : ParseSt) (l : List Char) :
    processLine e1 st l = processLine e2 st l := by
  cases l with
  | nil => rfl
  | cons c0 rest =>
    simp only [processLine, recordDispatch_congr e1 e2 hA hL]

/-- The whole parse loop only consults the active-aerodrome set and the
    geodetic-string oracle of the environment. -/
theorem runParse_congr (e1 e2 : Env)
    (hA : e1.activeAerodromes = e2.activeAerodromes)
    (hL : e1.loadPos = e2.loadPos) (st : ParseSt) (file : List (List Char)) :
    runParse e1 st file = runParse e2 st file := by
  induction file generalizing st with
  | nil => rfl
  | cons l ls ih =>
    simp only [runParse, processLine_congr e1 e2 hA hL st l]
    cases hp : processLine e2 st l with
    | error e => rfl
    | ok st2 => exact ih st2

/-- C7: after every reload, every entry of the label-to-hotspot index
    refers to a hotspot whose distance from the controller position does
    not exceed the display range read at that reload, and that hotspot is
    present in the raw hotspot list; moreover the raw hotspot list is not
    filtered by range at all: it is unchanged under any alteration of the
    controller position, the display range and the distance metric, so
    out-of-range hotspots are excluded only from the index while
    remaining in the raw hotspot list. -/
theorem C7_index_within_range (env : Env) (pathOk : Bool) (file : List (List Char))
    (s : PluginState) :
    (∀ (n : List Char) (h : Hotspot),
      (n, h) ∈ ((load env pathOk file s).1).hotspot_by_name →
      env.dist h.position env.myPos ≤ env.myRange ∧
      h ∈ ((load env pathOk file s).1).hotspot) ∧
    (∀ (p : Position) (r : Rat) (d : Position → Position → Rat),
      ((load { env with myPos := p, myRange := r, dist := d } pathOk file s).1).hotspot =
        ((load env pathOk file s).1).hotspot) := by
  constructor
  · intro n h hmem
    cases pathOk with
    | false => simp [load] at hmem
    | true =>
      rcases hE : runParse env initParseSt file with ⟨pst, err⟩
      cases err with
      | some e => simp [load, hE] at hmem
      | none =>
        simp only [load, hE] at hmem ⊢
        rcases buildIndex_mem env.dist env.myPos env.myRange _ _ _ hmem with
          hmem0 | ⟨h2, hh2, heq, hd⟩
        · exact absurd hmem0 (List.not_mem_nil _)
        · have hh : h = h2 := congrArg Prod.snd heq
          subst hh
          exact ⟨le_of_lt hd, hh2⟩
  · intro p r d
    have hR : runParse { env with myPos := p, myRange := r, dist := d }
        initParseSt file = runParse env initParseSt file :=
      runParse_congr { env with myPos := p, myRange := r, dist := d } env
        rfl rfl initParseSt file
    cases pathOk with
    | false => simp [load]
    | true =>
      rcases hE : runParse env initParseSt file with ⟨pst, err⟩
      cases err with
      | some e => simp [load, hE, hR]
      | none => simp [load, hE, hR]

/-- C7 witness: a single positioned hotspot within range ends up in the
    index and the first conjunct applies to its entry; and with the
    distance metric forced out of range (distance 5 against range 0) the
    raw hotspot list is unchanged. -/
theorem C7_index_within_range_witness :
    (envT.dist (⟨defPos, String.toList "X", 0⟩ : Hotspot).position envT.myPos ≤
      envT.myRange ∧
    (⟨defPos, String.toList "X", 0⟩ : Hotspot) ∈
      ((load envT true [String.toList "I X 1 2"] emptyPluginState).1).hotspot) ∧
    ((load { envT with myPos := defPos, myRange := 0, dist := fun _ _ => 5 } true
        [String.toList "I X 1 2"] emptyPluginState).1).hotspot =
      ((load envT true [String.toList "I X 1 2"] emptyPluginState).1).hotspot := by
  constructor
  · exact (C7_index_within_range envT true [String.toList "I X 1 2"]
      emptyPluginState).1 (String.toList "X") ⟨defPos, String.toList "X", 0⟩ (by decide)
  · exact (C7_index_within_range envT true [String.toList "I X 1 2"]
      emptyPluginState).2 defPos 0 (fun _ _ => 5)

/-- C8 counterexample: a callsign with no snapshot does not get a stale
    report; the pressure tag item returns early with an empty string and
    no staleness colour at all (result none, never some (shown, false)). -/
theorem C8_no_snapshot_reports_nothing :
    ¬ ∃ shown, tagItemPressure [] [(String.toList "LSZH", String.toList "13")]
        (String.toList "SWR1") (String.toList "LSZH") = some (shown, false) := by
  rintro ⟨shown, hs⟩
  have hnone : tagItemPressure [] [(String.toList "LSZH", String.toList "13")]
      (String.toList "SWR1") (String.toList "LSZH") = none := by decide
  rw [hnone] at hs
  exact Option.noConfusion hs

/-- C8 amended: when the callsign has no snapshot the pressure tag item
    yields nothing (empty string, colour output left unwritten); when a
    snapshot exists it shows its first two characters and reports
    not-stale exactly when the snapshot equals the origin aerodrome's
    current value (stale when it differs or the aerodrome has none). -/
theorem C8_stale_only_with_snapshot (acp adp : List (List Char × List Char))
    (callsign origin : List Char) :
    (alFind? acp callsign = none → tagItemPressure acp adp callsign origin = none) ∧
    (∀ snap, alFind? acp callsign = some snap →
      tagItemPressure acp adp callsign origin =
        some (snap.take 2, decide (alFind? adp origin = some snap))) := by
  constructor
  · intro h
    simp [tagItemPressure, h]
  · intro snap h
    cases hadp : alFind? adp origin with
    | none => simp [tagItemPressure, h, hadp]
    | some cur =>
      simp only [tagItemPressure, h, hadp]
      have hb : (snap == cur) = decide (some cur = some snap) := by
        by_cases he : snap = cur
        · subst he
          simp
        · have h1 : (snap == cur) = false := beq_eq_false_iff_ne.mpr he
          have h2 : decide (some cur = some snap) = false :=
            decide_eq_false (fun hc => he (Option.some.inj hc).symm)
          rw [h1, h2]
      rw [hb]

/-- C8 witness: with no snapshot the tag yields none; with snapshot 13
    matching the aerodrome value the tag shows 13 and reports not-stale. -/
theorem C8_stale_only_with_snapshot_witness :
    tagItemPressure [] [(String.toList "LSZH", String.toList "13")]
      (String.toList "SWR1") (String.toList "LSZH") = none ∧
    tagItemPressure [(String.toList "SWR1", String.toList "13")]
      [(String.toList "LSZH", String.toList "13")]
      (String.toList "SWR1") (String.toList "LSZH") =
      some (String.toList "13", true) := by
  constructor
  · exact (C8_stale_only_with_snapshot [] [(String.toList "LSZH", String.toList "13")]
      (String.toList "SWR1") (String.toList "LSZH")).1 (by decide)
  · exact (C8_stale_only_with_snapshot
      [(String.toList "SWR1", String.toList "13")]
      [(String.toList "LSZH", String.toList "13")]
      (String.toList "SWR1") (String.toList "LSZH")).2 (String.toList "13") (by decide)

/-- C9: a reload clears and rebuilds only the hotspot list, the index,
    the closed-polygon list and the stand table (their results do not
    depend on the previous plugin state); the dehighlight set and the two
    pressure maps are unchanged by every reload, including one that fails
    to resolve the configuration path, which leaves the four derived
    collections empty. -/
theorem C9_reload_frame (env : Env) (pathOk : Bool) (file : List (List Char))
    (s t : PluginState) :
    ((load env pathOk file s).1.dehighlight = s.dehighlight ∧
     (load env pathOk file s).1.ac_pressure = s.ac_pressure ∧
     (load env pathOk file s).1.ad_pressure = s.ad_pressure) ∧
    ((load env pathOk file s).1.hotspot = (load env pathOk file t).1.hotspot ∧
     (load env pathOk file s).1.hotspot_by_name =
       (load env pathOk file t).1.hotspot_by_name ∧
     (load env pathOk file s).1.closed = (load env pathOk file t).1.closed ∧
     (load env pathOk file s).1.stands = (load env pathOk file t).1.stands) ∧
    (pathOk = false →
     (load env pathOk file s).1.hotspot = [] ∧
     (load env pathOk file s).1.hotspot_by_name = [] ∧
     (load env pathOk file s).1.closed = [] ∧
     (load env pathOk file s).1.stands = []) := by
  cases pathOk with
  | false => simp [load]
  | true =>
    rcases hE : runParse env initParseSt file with ⟨pst, err⟩
    cases err with
    | some e => simp [load, hE]
    | none => simp [load, hE]

/-- C9 witness: a failed-path reload resets the derived collections to
    empty. -/
theorem C9_reload_frame_witness :
    (load envT false [] emptyPluginState).1.hotspot = [] ∧
    (load envT false [] emptyPluginState).1.hotspot_by_name = [] ∧
    (load envT false [] emptyPluginState).1.closed = [] ∧
    (load envT false [] emptyPluginState).1.stands = [] := by
  exact (C9_reload_frame envT false [] emptyPluginState emptyPluginState).2.2 rfl

/-- C10: the stand tag item yields an empty string and no colour for
    every flight plan farther than 10.0 from its origin; a stand letter
    and palette colour are surfaced only within that distance. -/
theorem C10_stand_tag_distance_cutoff
    (stands : List (List Char × List (List Char × StandInfo))) (d : Rat)
    (origin annotation : List Char) (engineType : Char) :
    (10 < d → tagItemStand stands d origin annotation engineType = ([], none)) ∧
    ((tagItemStand stands d origin annotation engineType).2 ≠ none → d ≤ 10) := by
  constructor
  · intro h
    simp [tagItemStand, h]
  · intro h
    by_contra hlt
    push_neg at hlt
    exact h (by simp [tagItemStand, hlt])

/-- C10 witness: at distance 11 the stand tag is empty with no colour. -/
theorem C10_stand_tag_distance_cutoff_witness :
    tagItemStand [] 11 [] [] 'J' = ([], none) := by
  exact (C10_stand_tag_distance_cutoff [] 11 [] [] 'J').1 (by norm_num)
